import Mathlib

/-!
# Verification of the reusekit media-sanitization core

Shallow embedding of the `pkg/reusekit` package: data model (`Storage`,
`Device`, `Artifact`), the hash-chained audit `Logger`, the `Wipe` task,
`Pipeline.validate` and the `Session` orchestrator, together with proofs of
the specified properties.  Bytes are `Nat` (values < 256), machine words are
`Nat` reduced mod 2^32, file contents are `List Nat`, and the filesystem is a
total map from paths to contents.
-/

namespace Reusekit

/-! ## SHA-256 over byte lists (`hashlib.sha256(...).hexdigest()`) -/

/-- Truncate to a 32-bit word. -/
def mask32 (x : Nat) : Nat := x % 4294967296

/-- 32-bit addition. -/
def add32 (a b : Nat) : Nat := mask32 (a + b)

/-- Right rotation of a 32-bit word. -/
def rotr (n x : Nat) : Nat := mask32 ((x >>> n) ||| (x <<< (32 - n)))

def bigSigma0 (x : Nat) : Nat := (rotr 2 x) ^^^ (rotr 13 x) ^^^ (rotr 22 x)
def bigSigma1 (x : Nat) : Nat := (rotr 6 x) ^^^ (rotr 11 x) ^^^ (rotr 25 x)
def smallSigma0 (x : Nat) : Nat := (rotr 7 x) ^^^ (rotr 18 x) ^^^ (x >>> 3)
def smallSigma1 (x : Nat) : Nat := (rotr 17 x) ^^^ (rotr 19 x) ^^^ (x >>> 10)

/-- The 64 SHA-256 round constants (decimal). -/
def sha256K : List Nat :=
  [1116352408, 1899447441, 3049323471, 3921009573, 961987163, 1508970993,
   2453635748, 2870763221, 3624381080, 310598401, 607225278, 1426881987,
   1925078388, 2162078206, 2614888103, 3248222580, 3835390401, 4022224774,
   264347078, 604807628, 770255983, 1249150122, 1555081692, 1996064986,
   2554220882, 2821834349, 2952996808, 3210313671, 3336571891, 3584528711,
   113926993, 338241895, 666307205, 773529912, 1294757372, 1396182291,
   1695183700, 1986661051, 2177026350, 2456956037, 2730485921, 2820302411,
   3259730800, 3345764771, 3516065817, 3600352804, 4094571909, 275423344,
   430227734, 506948616, 659060556, 883997877, 958139571, 1322822218,
   1537002063, 1747873779, 1955562222, 2024104815, 2227730452, 2361852424,
   2428436474, 2756734187, 3204031479, 3329325298]

/-- The initial SHA-256 hash state (eight 32-bit words, decimal). -/
def sha256H0 : List Nat :=
  [1779033703, 3144134277, 1013904242, 2773480762,
   1359893119, 2600822924, 528734635, 1541459225]

/-- Append one word to the message schedule (indices counted from the end). -/
def scheduleStep (ws : List Nat) : List Nat :=
  let l := ws.length
  ws ++ [mask32 (ws.getD (l - 16) 0 + smallSigma0 (ws.getD (l - 15) 0) +
                 ws.getD (l - 7) 0 + smallSigma1 (ws.getD (l - 2) 0))]

/-- Extend a 16-word block by `k` schedule words. -/
def extendSchedule (ws : List Nat) : Nat → List Nat
  | 0 => ws
  | k + 1 => extendSchedule (scheduleStep ws) k

/-- One SHA-256 round: state is the list `[a,b,c,d,e,f,g,h]`. -/
def sha256Round (st : List Nat) (wk : Nat × Nat) : List Nat :=
  match st with
  | [a, b, c, d, e, f, g, h] =>
    let t1 := mask32 (h + bigSigma1 e + ((e &&& f) ^^^ ((4294967295 - e) &&& g)) + wk.2 + wk.1)
    let t2 := mask32 (bigSigma0 a + ((a &&& b) ^^^ (a &&& c) ^^^ (b &&& c)))
    [add32 t1 t2, a, b, c, add32 d t1, e, f, g]
  | st => st

/-- Compress one 16-word block into the running hash state. -/
def compressBlock (hs : List Nat) (block : List Nat) : List Nat :=
  let w := extendSchedule block 48
  let st := (w.zip sha256K).foldl sha256Round hs
  (hs.zip st).map fun p => add32 p.1 p.2

/-- Fold all 16-word blocks of the padded message into the hash state. -/
def sha256Blocks (hs : List Nat) : List Nat → List Nat
  | w0 :: w1 :: w2 :: w3 :: w4 :: w5 :: w6 :: w7 ::
    w8 :: w9 :: w10 :: w11 :: w12 :: w13 :: w14 :: w15 :: rest =>
    sha256Blocks
      (compressBlock hs [w0, w1, w2, w3, w4, w5, w6, w7,
                         w8, w9, w10, w11, w12, w13, w14, w15]) rest
  | _ => hs

/-- Group bytes into big-endian 32-bit words, four bytes at a time. -/
def bytesToWords : List Nat → List Nat
  | b0 :: b1 :: b2 :: b3 :: rest =>
    (b0 * 16777216 + b1 * 65536 + b2 * 256 + b3) :: bytesToWords rest
  | _ => []

/-- SHA-256 padding: `0x80`, zeros to 56 mod 64, 64-bit big-endian bit length. -/
def sha256Pad (msg : List Nat) : List Nat :=
  let len := msg.length
  let zeros := (119 - (len % 64)) % 64
  let bits := len * 8
  msg ++ [128] ++ List.replicate zeros 0 ++
    (List.range 8).map fun i => bits >>> (8 * (7 - i)) % 256

/-- One lowercase hex digit. -/
def hexDigit (n : Nat) : Char :=
  if n < 10 then Char.ofNat (48 + n) else Char.ofNat (87 + n)

/-- A 32-bit word as exactly eight lowercase hex digits. -/
def wordHex8 (w : Nat) : List Char :=
  (List.range 8).map fun i => hexDigit (w / 16 ^ (7 - i) % 16)

/-- `hashlib.sha256(bytes).hexdigest()`: lowercase hex of the 256-bit digest. -/
def sha256hexBytes (msg : List Nat) : String :=
  String.mk ((sha256Blocks sha256H0 (bytesToWords (sha256Pad msg))).flatMap wordHex8)

/-- UTF-8 encoding of one character. -/
def utf8Char (c : Char) : List Nat :=
  let n := c.toNat
  if n < 128 then [n]
  else if n < 2048 then [192 + n / 64, 128 + n % 64]
  else if n < 65536 then [224 + n / 4096, 128 + n / 64 % 64, 128 + n % 64]
  else [240 + n / 262144, 128 + n / 4096 % 64, 128 + n / 64 % 64, 128 + n % 64]

/-- UTF-8 encoding of a string (`str.encode("utf-8")`). -/
def utf8Bytes (s : String) : List Nat := s.data.flatMap utf8Char

/-- `hashlib.sha256(s.encode("utf-8")).hexdigest()`. -/
def sha256hexStr (s : String) : String := sha256hexBytes (utf8Bytes s)

example : sha256hexStr "abc" =
    "ba7816bf8f01cfea414140de5dae2223b00361a396177a9cb410ff61f20015ad" := by decide

example : sha256hexStr "" =
    "e3b0c44298fc1c149afbf4c8996fb92427ae41e4649b934ca495991b7852b855" := by decide

/-! ## Data model (`models.py`, `errors.py`) -/

/-- `Storage` dataclass: one addressable storage unit. -/
structure Storage where
  name : String
  path : String
  size_bytes : Nat
  transport : String
deriving DecidableEq, Repr

/-- `Device` dataclass: one discovered hardware unit.  Timestamps are `Nat`. -/
structure Device where
  id : String
  vendor : String
  model : String
  serial : Option String
  storage : List Storage
  created_at : Nat
deriving DecidableEq, Repr

/-- `Artifact` dataclass: immutable output of a successful task. -/
structure Artifact where
  kind : String
  path : String
  sha256 : String
  meta : List (String × String)
  created_at : Option Nat
deriving DecidableEq, Repr

/-- `ReuseKitError(code, hint, recoverable)`: the single exception type. -/
structure ReuseKitError where
  code : String
  hint : String
  recoverable : Bool
deriving DecidableEq, Repr

/-- Python `repr(exc)` for a `ReuseKitError` (message built in `__init__`). -/
def reprErr (e : ReuseKitError) : String :=
  "ReuseKitError(\x27" ++ (if e.hint = "" then e.code else e.code ++ ": " ++ e.hint) ++ "\x27)"

/-- The filesystem: a total map from path to file contents (byte list). -/
def FS : Type := String → List Nat

/-- Overwrite the contents of one path. -/
def updateFS (fs : FS) (p : String) (v : List Nat) : FS :=
  fun q => if q = p then v else fs q

/-! ## Audit Logger (`logging.py`) -/

/-- One audit record: `{"ts": ts, "kind": kind, "data": data, "prev": prev}`.
Data payloads in this package are flat string-to-string dicts. -/
structure LogRecord where
  ts : Nat
  kind : String
  data : List (String × String)
  prev : String
deriving DecidableEq, Repr

/-- JSON escaping of one character (`json.dumps`, `ensure_ascii=False`). -/
def jsonEscapeChar (c : Char) : List Char :=
  if c = Char.ofNat 34 then [Char.ofNat 92, Char.ofNat 34]
  else if c = Char.ofNat 92 then [Char.ofNat 92, Char.ofNat 92]
  else if c = Char.ofNat 10 then [Char.ofNat 92, Char.ofNat 110]
  else if c = Char.ofNat 13 then [Char.ofNat 92, Char.ofNat 114]
  else if c = Char.ofNat 9 then [Char.ofNat 92, Char.ofNat 116]
  else if c = Char.ofNat 8 then [Char.ofNat 92, Char.ofNat 98]
  else if c = Char.ofNat 12 then [Char.ofNat 92, Char.ofNat 102]
  else if c.toNat < 32 then
    [Char.ofNat 92, Char.ofNat 117, Char.ofNat 48, Char.ofNat 48,
     hexDigit (c.toNat / 16), hexDigit (c.toNat % 16)]
  else [c]

/-- A JSON string literal with quotes. -/
def jsonStr (s : String) : String :=
  "\"" ++ String.mk (s.data.flatMap jsonEscapeChar) ++ "\""

/-- A JSON object of string values, `separators=(",", ":")`. -/
def jsonObj (pairs : List (String × String)) : String :=
  "\x7b" ++ String.intercalate "," (pairs.map fun p => jsonStr p.1 ++ ":" ++ jsonStr p.2) ++ "\x7d"

/-- The canonical serialized line of one record, exactly as hashed and written:
`json.dumps({"ts": ts, "kind": kind, "data": data, "prev": prev},
ensure_ascii=False, separators=(",", ":"))`. -/
def serializeRecord (r : LogRecord) : String :=
  "\x7b\"ts\":" ++ toString r.ts ++ ",\"kind\":" ++ jsonStr r.kind ++
    ",\"data\":" ++ jsonObj r.data ++ ",\"prev\":" ++ jsonStr r.prev ++ "\x7d"

/-- `Logger` state: the in-memory `_prev` cursor plus the appended records
(the lines of `log.jsonl`, in order).  `clock`/`tick` model `time.time()`:
the `n`-th call observes timestamp `clock n`. -/
structure LoggerState where
  clock : Nat → Nat
  tick : Nat
  prev : String
  records : List LogRecord

/-- A fresh `Logger` (constructor): empty cursor, no records. -/
def Logger.init (clock : Nat → Nat) : LoggerState :=
  { clock := clock, tick := 0, prev := "", records := [] }

/-- The record `Logger.event` builds from the current state. -/
def Logger.mkRecord (kind : String) (data : List (String × String)) (s : LoggerState) :
    LogRecord :=
  { ts := s.clock s.tick, kind := kind, data := data, prev := s.prev }

/-- `Logger.event(kind, data)` with a successful durable write: serialize the
record, hash the line, store the hash as the new cursor, append the line. -/
def Logger.event (kind : String) (data : List (String × String)) (s : LoggerState) :
    LoggerState :=
  let r := Logger.mkRecord kind data s
  { clock := s.clock, tick := s.tick + 1,
    prev := sha256hexStr (serializeRecord r), records := s.records ++ [r] }

/-- `Logger.event(kind, data)` when the file write raises: in the source the
cursor assignment `self._prev = h` precedes the `open`/`write`, so the cursor
still advances while no record is persisted. -/
def Logger.eventFailingWrite (kind : String) (data : List (String × String))
    (s : LoggerState) : LoggerState :=
  let r := Logger.mkRecord kind data s
  { clock := s.clock, tick := s.tick + 1,
    prev := sha256hexStr (serializeRecord r), records := s.records }

/-- Run a sequence of `event(kind, data)` calls (all writes succeeding). -/
def runEvents (calls : List (String × List (String × String))) (s : LoggerState) :
    LoggerState :=
  calls.foldl (fun l c => Logger.event c.1 c.2 l) s

/-- The hash chain is intact starting from cursor `p`: the first record's
`prev` is `p`, and each later record's `prev` is the SHA-256 hex of its
predecessor's canonical serialization. -/
def chainOkFrom (p : String) : List LogRecord → Bool
  | [] => true
  | r :: rs => (r.prev == p) && chainOkFrom (sha256hexStr (serializeRecord r)) rs

/-- The cursor value after appending `rs` on top of cursor `p`. -/
def chainCursor (p : String) (rs : List LogRecord) : String :=
  match rs.getLast? with
  | none => p
  | some r => sha256hexStr (serializeRecord r)

example : serializeRecord ⟨123, "task_start", [("name", "wipe")], ""⟩ =
    "\x7b\"ts\":123,\"kind\":\"task_start\",\"data\":\x7b\"name\":\"wipe\"\x7d,\"prev\":\"\"\x7d" := by
  decide

example : sha256hexStr (serializeRecord ⟨123, "task_start", [("name", "wipe")], ""⟩) =
    "012138a6adced283f672d3e504e883f76fdf56e1261466fa79d9319580284cc9" := by decide

example : reprErr { code := "WRITE_BLOCKED", hint := "transport sata", recoverable := false } =
    "ReuseKitError(\x27WRITE_BLOCKED: transport sata\x27)" := by decide

/-! ## Wipe task (`tasks/wipe.py`) -/

/-- `Wipe.__init__` fields.  `samples` is a Python `int`, so `Int`. -/
structure Wipe where
  method : String
  verify : Bool
  samples : Int
  seed : Option Int
deriving DecidableEq, Repr

/-- The wipe chunk, `b"\x00" * 1024 * 1024`: its length. -/
def chunkLen : Nat := 1024 * 1024

/-- A sequential file write at position `pos`: later bytes are overwritten,
and the file grows when the write runs past its current end. -/
def writeAt (content : List Nat) (pos : Nat) (bs : List Nat) : List Nat :=
  content.take pos ++ bs ++ content.drop (pos + bs.length)

/-- The `while remaining > 0` loop of `_wipe_storage`, writing
`chunk[:n]` for `n = min(len(chunk), remaining)` at the current position.
Each iteration consumes at least one byte, so `remaining` itself bounds the
iteration count and serves as structural fuel. -/
def wipeLoopF : Nat → List Nat → Nat → Nat → List Nat
  | 0, content, _, _ => content
  | fuel + 1, content, pos, remaining =>
    if remaining = 0 then content
    else
      let n := min chunkLen remaining
      wipeLoopF fuel (writeAt content pos (List.replicate n 0)) (pos + n) (remaining - n)

/-- The chunked zero-overwrite of `[0, remaining)` starting at `pos`. -/
def wipeLoop (content : List Nat) (pos remaining : Nat) : List Nat :=
  wipeLoopF remaining content pos remaining

/-- `Wipe._wipe_storage`: the safety gate, then the chunked overwrite of
`[0, size_bytes)` followed by flush/fsync.  The gate raises before any byte
is touched, so the error case carries no filesystem. -/
def wipeStorage (st : Storage) (fs : FS) : Except ReuseKitError FS :=
  if st.transport ≠ "file" then
    .error { code := "WRITE_BLOCKED", hint := "transport " ++ st.transport,
             recoverable := false }
  else
    .ok (updateFS fs st.path (wipeLoop (fs st.path) 0 st.size_bytes))

/-- `Wipe._verify_zero_samples`: read the whole file back and fail if any
byte is non-zero. -/
def verifyZero (st : Storage) (fs : FS) : Except ReuseKitError Unit :=
  if (fs st.path).any (fun b => b ≠ 0) then
    .error { code := "VERIFY_MISMATCH", hint := "non-zero byte detected",
             recoverable := false }
  else
    .ok ()

/-- The per-unit loop of `Wipe.run`: wipe each unit in stored order, verify
when `self.verify and self.samples` is truthy, stop at the first failure.
The returned filesystem reflects all writes made before the failure. -/
def Wipe.runUnits (w : Wipe) : List Storage → FS → Option ReuseKitError × FS
  | [], fs => (none, fs)
  | st :: sts, fs =>
    match wipeStorage st fs with
    | .error e => (some e, fs)
    | .ok fs1 =>
      if w.verify && !(w.samples == 0) then
        match verifyZero st fs1 with
        | .error e => (some e, fs1)
        | .ok _ => Wipe.runUnits w sts fs1
      else Wipe.runUnits w sts fs1

/-- The bytes of the `wipe.json` report: `json.dumps({"status": "ok"})`. -/
def wipeReportBytes : List Nat := utf8Bytes "\x7b\"status\": \"ok\"\x7d"

/-- `Wipe.run`: process every storage unit, then write `wipe.json` into the
working directory and return the content-hashed `wipe_report` Artifact. -/
def Wipe.run (w : Wipe) (device : Device) (workdir : String) (fs : FS) :
    Except ReuseKitError Artifact × FS :=
  match Wipe.runUnits w device.storage fs with
  | (some e, fs1) => (.error e, fs1)
  | (none, fs1) =>
    let out := workdir ++ "/wipe.json"
    let fs2 := updateFS fs1 out wipeReportBytes
    (.ok { kind := "wipe_report", path := out,
           sha256 := sha256hexBytes (fs2 out), meta := [],
           created_at := some device.created_at }, fs2)

/-! ## Pipeline (`pipeline.py`) and Session (`session.py`) -/

/-- One element of a pipeline's task list, as `Session`/`Pipeline` observe
it: whether it is a `Task` instance (`isinstance(t, Task)`), its `name`
attribute, and its `run` behaviour — an artifact or a raised error, plus
whatever file writes it performed.  Tasks do not touch the Session's private
logger. -/
structure PTask where
  isTask : Bool
  name : String
  run : FS → Except ReuseKitError Artifact × FS

instance : Inhabited Artifact := ⟨{ kind := "", path := "", sha256 := "",
                                    meta := [], created_at := none }⟩

instance : Inhabited PTask :=
  ⟨{ isTask := false, name := "", run := fun fs => (.ok default, fs) }⟩

/-- `Pipeline.validate`: `EMPTY_PIPELINE` on an empty list, else scan in
index order raising `INVALID_TASK` for a non-`Task` element and
`MISSING_TASK_NAME` for an empty name, checked in that order per index. -/
def validateFrom (i : Nat) : List PTask → Except ReuseKitError Unit
  | [] => .ok ()
  | t :: ts =>
    if !t.isTask then
      .error { code := "INVALID_TASK",
               hint := "index " ++ toString i ++ " is not a Task",
               recoverable := false }
    else if t.name = "" then
      .error { code := "MISSING_TASK_NAME", hint := "index " ++ toString i,
               recoverable := false }
    else validateFrom (i + 1) ts

def Pipeline.validate (tasks : List PTask) : Except ReuseKitError Unit :=
  if tasks.isEmpty then
    .error { code := "EMPTY_PIPELINE", hint := "add at least one task",
             recoverable := true }
  else validateFrom 0 tasks

/-- A Session's mutable surroundings for one run: the filesystem and the
exclusively-owned Logger. -/
structure SessionState where
  fs : FS
  logger : LoggerState

/-- The task loop of `Session.run`: log `task_start`, invoke the task, then
log `task_end` and collect the artifact, or log `task_error` and propagate
the failure unchanged, executing no later task. -/
def Session.runLoop : List PTask → SessionState → List Artifact →
    Except ReuseKitError (List Artifact) × SessionState
  | [], s, acc => (.ok acc, s)
  | t :: ts, s, acc =>
    let l1 := Logger.event "task_start" [("name", t.name)] s.logger
    match t.run s.fs with
    | (.error e, fs1) =>
      (.error e, { fs := fs1,
                   logger := Logger.event "task_error"
                     [("name", t.name), ("error", reprErr e)] l1 })
    | (.ok a, fs1) =>
      Session.runLoop ts
        { fs := fs1,
          logger := Logger.event "task_end"
            [("name", t.name), ("artifact", a.path)] l1 }
        (acc ++ [a])

/-- `Session.run(pipeline)`: validate, then run the task loop. -/
def Session.run (tasks : List PTask) (s : SessionState) :
    Except ReuseKitError (List Artifact) × SessionState :=
  match Pipeline.validate tasks with
  | .error e => (.error e, s)
  | .ok _ => Session.runLoop tasks s []

/-- The audit events a list of tasks and their artifacts produce when every
task succeeds: a `task_start`/`task_end` pair per task. -/
def taskEvents (tasks : List PTask) (arts : List Artifact) :
    List (String × List (String × String)) :=
  (tasks.zip arts).flatMap fun p =>
    [("task_start", [("name", p.1.name)]),
     ("task_end", [("name", p.1.name), ("artifact", p.2.path)])]

/-- The run trajectory in which every task succeeds: task `i` receives the
filesystem left by task `i-1`, returns artifact `arts[i]`, and the final
filesystem is `fs'`.  (Session logging never changes the filesystem, so the
trajectory is determined by the task list and the initial filesystem.) -/
inductive RunSucceeds : List PTask → FS → List Artifact → FS → Prop
  | nil (fs : FS) : RunSucceeds [] fs [] fs
  | cons {t : PTask} {ts : List PTask} {fs fs1 fs2 : FS} {a : Artifact}
      {arts : List Artifact} :
      t.run fs = (.ok a, fs1) → RunSucceeds ts fs1 arts fs2 →
      RunSucceeds (t :: ts) fs (a :: arts) fs2

/-- The run trajectory in which the `(m+1)`-st task is the first to fail:
the first `m` tasks succeed with artifacts `arts`, then the next task raises
`e`, leaving filesystem `fs'`. -/
inductive FailsAt : List PTask → FS → Nat → List Artifact → ReuseKitError → FS → Prop
  | here {t : PTask} {ts : List PTask} {fs fs1 : FS} {e : ReuseKitError} :
      t.run fs = (.error e, fs1) → FailsAt (t :: ts) fs 0 [] e fs1
  | there {t : PTask} {ts : List PTask} {fs fs1 fs2 : FS} {a : Artifact}
      {arts : List Artifact} {m : Nat} {e : ReuseKitError} :
      t.run fs = (.ok a, fs1) → FailsAt ts fs1 m arts e fs2 →
      FailsAt (t :: ts) fs (m + 1) (a :: arts) e fs2

/-! ## Claim C6: `Pipeline.validate` characterization -/

/-- An element that fails the scan: not a `Task` instance, or empty name. -/
def badTask (t : PTask) : Bool := !(t.isTask && !(t.name == ""))

/-- The claim's description of `validate`, stated over the first offending
index (refinement side, following the claim's words): empty list fails with
`EmptyPipelineError`; otherwise the scan fails at the first offending index,
with the capability check before the name check; a list of conforming,
validly-named tasks passes. -/
def validateClaim (tasks : List PTask) : Except ReuseKitError Unit :=
  if tasks.isEmpty then
    .error { code := "EMPTY_PIPELINE", hint := "add at least one task",
             recoverable := true }
  else
    match tasks.findIdx? badTask with
    | none => .ok ()
    | some i =>
      if (tasks.getD i default).isTask then
        .error { code := "MISSING_TASK_NAME", hint := "index " ++ toString i,
                 recoverable := false }
      else
        .error { code := "INVALID_TASK",
                 hint := "index " ++ toString i ++ " is not a Task",
                 recoverable := false }

theorem validateFrom_eq (ts : List PTask) : ∀ i, validateFrom i ts =
    match ts.findIdx? badTask with
    | none => .ok ()
    | some j =>
      if (ts.getD j default).isTask then
        .error { code := "MISSING_TASK_NAME", hint := "index " ++ toString (i + j),
                 recoverable := false }
      else
        .error { code := "INVALID_TASK",
                 hint := "index " ++ toString (i + j) ++ " is not a Task",
                 recoverable := false } := by
  induction ts with
  | nil => intro i; simp [validateFrom, List.findIdx?]
  | cons t ts ih =>
    intro i
    rw [validateFrom]
    by_cases hT : t.isTask
    · by_cases hN : t.name = ""
      · simp [hT, hN, List.findIdx?_cons, badTask]
      · have hbad : badTask t = false := by simp [badTask, hT, hN]
        simp only [List.findIdx?_cons, hbad, hT, hN, Bool.false_eq_true, if_false,
          ite_false]
        rw [ih (i + 1)]
        cases hfi : ts.findIdx? badTask with
        | none => simp [hfi]
        | some j =>
          have hadd : i + 1 + j = i + (j + 1) := by omega
          simp [hfi, hadd, List.getD_cons_succ]
    · simp [hT, List.findIdx?_cons, badTask]

/-- Claim C6: `Pipeline.validate()` fails with `EmptyPipelineError` exactly
on the empty task list; otherwise, scanning indices in order, it fails at
the first offending element — with `InvalidTaskError(index)` when that
element does not satisfy the Task capability and `MissingTaskNameError(index)`
when it is a `Task` whose name is empty — and succeeds for every non-empty
list of conforming, validly-named tasks. -/
theorem C6_pipeline_validate (tasks : List PTask) :
    Pipeline.validate tasks = validateClaim tasks := by
  unfold Pipeline.validate validateClaim
  by_cases h : tasks = []
  · subst h; rfl
  · have hE : tasks.isEmpty = false := by
      cases tasks with
      | nil => exact absurd rfl h
      | cons a l => rfl
    rw [hE]
    simp only [Bool.false_eq_true, if_false]
    rw [validateFrom_eq tasks 0]
    cases tasks.findIdx? badTask with
    | none => rfl
    | some j => simp

/-! ## Claims C3 and C10: the Logger hash chain -/

theorem sha256Round_length (st : List Nat) (wk : Nat × Nat) :
    (sha256Round st wk).length = st.length := by
  unfold sha256Round; split <;> simp

theorem foldl_sha256Round_length (l : List (Nat × Nat)) :
    ∀ hs : List Nat, (l.foldl sha256Round hs).length = hs.length := by
  induction l with
  | nil => intro hs; rfl
  | cons x l ih => intro hs; rw [List.foldl_cons, ih, sha256Round_length]

theorem compressBlock_length (hs block : List Nat) :
    (compressBlock hs block).length = hs.length := by
  unfold compressBlock
  simp [foldl_sha256Round_length]

theorem sha256Blocks_length (hs ws : List Nat) :
    (sha256Blocks hs ws).length = hs.length := by
  induction hs, ws using sha256Blocks.induct with
  | case1 hs w0 w1 w2 w3 w4 w5 w6 w7 w8 w9 w10 w11 w12 w13 w14 w15 rest ih =>
    rw [sha256Blocks, ih, compressBlock_length]
  | case2 hs ws h =>
    rw [sha256Blocks.eq_def]
    split
    · exact (h _ _ _ _ _ _ _ _ _ _ _ _ _ _ _ _ _ rfl).elim
    · rfl

theorem wordHex8_length (w : Nat) : (wordHex8 w).length = 8 := by
  simp [wordHex8]

theorem flatMap_wordHex8_length (l : List Nat) :
    (l.flatMap wordHex8).length = 8 * l.length := by
  induction l with
  | nil => rfl
  | cons x l ih =>
    simp only [List.flatMap_cons, List.length_append, wordHex8_length, ih,
      List.length_cons]
    omega

/-- Every digest this embedding produces is 64 hex characters. -/
theorem sha256hexBytes_length (msg : List Nat) : (sha256hexBytes msg).length = 64 := by
  unfold sha256hexBytes
  rw [String.length, flatMap_wordHex8_length, sha256Blocks_length]
  rfl

theorem chainOkFrom_append (r : LogRecord) (rs : List LogRecord) :
    ∀ p, chainOkFrom p (rs ++ [r]) =
      (chainOkFrom p rs && (r.prev == chainCursor p rs)) := by
  induction rs with
  | nil => intro p; simp [chainOkFrom, chainCursor, Bool.and_comm]
  | cons x rs ih =>
    intro p
    have hcur : chainCursor p (x :: rs) =
        chainCursor (sha256hexStr (serializeRecord x)) rs := by
      cases rs with
      | nil => simp [chainCursor]
      | cons y t =>
        simp only [chainCursor, List.getLast?_cons_cons]
        cases hl : (y :: t).getLast? with
        | none => exact absurd hl (by simp)
        | some z => rfl
    rw [List.cons_append, chainOkFrom, chainOkFrom, ih, hcur, Bool.and_assoc]

/-- The Logger invariant: the records chain from the empty sentinel, and the
in-memory cursor is the hash of the last record (or the sentinel). -/
def goodLogger (s : LoggerState) : Prop :=
  chainOkFrom "" s.records = true ∧ s.prev = chainCursor "" s.records

theorem goodLogger_init (clock : Nat → Nat) : goodLogger (Logger.init clock) :=
  ⟨rfl, rfl⟩

theorem goodLogger_event (kind : String) (data : List (String × String))
    (s : LoggerState) (hs : goodLogger s) : goodLogger (Logger.event kind data s) := by
  obtain ⟨hchain, hcur⟩ := hs
  constructor
  · show chainOkFrom "" (s.records ++ [Logger.mkRecord kind data s]) = true
    rw [chainOkFrom_append, hchain, Bool.true_and, beq_iff_eq]
    exact hcur.symm ▸ rfl
  · show sha256hexStr (serializeRecord (Logger.mkRecord kind data s)) =
      chainCursor "" (s.records ++ [Logger.mkRecord kind data s])
    simp [chainCursor, List.getLast?_append]

theorem goodLogger_runEvents (calls : List (String × List (String × String))) :
    ∀ s : LoggerState, goodLogger s → goodLogger (runEvents calls s) := by
  induction calls with
  | nil => intro s hs; exact hs
  | cons c calls ih =>
    intro s hs
    exact ih _ (goodLogger_event c.1 c.2 s hs)

/-- Claim C3: for every fresh Logger and every sequence of `event(kind, data)`
calls on it, each appended record's `prev` equals the SHA-256 hex digest of
the immediately preceding record's canonical serialized bytes, and the first
record's `prev` is the empty string (this is exactly `chainOkFrom ""`). -/
theorem C3_logger_hash_chain (calls : List (String × List (String × String)))
    (clock : Nat → Nat) :
    chainOkFrom "" (runEvents calls (Logger.init clock)).records = true :=
  (goodLogger_runEvents calls (Logger.init clock) (goodLogger_init clock)).1

/-- Claim C10: `Logger.event` advances the in-memory cursor before the
durable write, so a call whose write fails still advances the cursor to the
hash of the record that was never persisted: the record list is unchanged,
the cursor now holds that 64-character hash (in particular the state is not
left unchanged: a fresh logger's empty cursor becomes non-empty), and the
next successfully appended record's `prev` is the hash of the unpersisted
record. -/
theorem C10_cursor_advances_on_failed_write (kind kind2 : String)
    (data data2 : List (String × String)) (s : LoggerState) :
    (Logger.eventFailingWrite kind data s).records = s.records ∧
    (Logger.eventFailingWrite kind data s).prev =
      sha256hexStr (serializeRecord (Logger.mkRecord kind data s)) ∧
    (Logger.eventFailingWrite kind data s).prev.length = 64 ∧
    (s.prev = "" → (Logger.eventFailingWrite kind data s).prev ≠ s.prev) ∧
    (Logger.event kind2 data2 (Logger.eventFailingWrite kind data s)).records =
      s.records ++ [Logger.mkRecord kind2 data2 (Logger.eventFailingWrite kind data s)] ∧
    (Logger.mkRecord kind2 data2 (Logger.eventFailingWrite kind data s)).prev =
      sha256hexStr (serializeRecord (Logger.mkRecord kind data s)) := by
  refine ⟨rfl, rfl, sha256hexBytes_length _, ?_, rfl, rfl⟩
  intro hprev heq
  have h64 : (Logger.eventFailingWrite kind data s).prev.length = 64 :=
    sha256hexBytes_length _
  rw [heq, hprev] at h64
  exact absurd h64 (by decide)

/-- Witness for C10 at a concrete fresh logger and concrete events. -/
theorem C10_cursor_advances_on_failed_write_witness :
    (Logger.init (fun _ => 7)).prev = "" ∧
    (Logger.eventFailingWrite "task_start" [("name", "wipe")]
        (Logger.init (fun _ => 7))).records = [] ∧
    (Logger.eventFailingWrite "task_start" [("name", "wipe")]
        (Logger.init (fun _ => 7))).prev ≠ "" := by
  have h := C10_cursor_advances_on_failed_write "task_start" "task_end"
    [("name", "wipe")] [("name", "wipe")] (Logger.init (fun _ => 7))
  exact ⟨rfl, h.1, h.2.2.2.1 rfl⟩

/-! ## Claims C1, C4, C7, C9: the Wipe task -/

theorem writeAt_length (content : List Nat) (pos : Nat) (bs : List Nat)
    (h : pos ≤ content.length) :
    (writeAt content pos bs).length = max content.length (pos + bs.length) := by
  simp only [writeAt, List.length_append, List.length_take, List.length_drop]
  omega

theorem wipeLoopF_spec : ∀ (fuel : Nat) (content : List Nat) (pos remaining : Nat),
    remaining ≤ fuel → pos ≤ content.length →
    wipeLoopF fuel content pos remaining =
      content.take pos ++ List.replicate remaining 0 ++ content.drop (pos + remaining) := by
  intro fuel
  induction fuel with
  | zero =>
    intro content pos remaining hr hp
    have : remaining = 0 := by omega
    subst this
    simp [wipeLoopF, List.take_append_drop]
  | succ fuel ih =>
    intro content pos remaining hr hp
    rw [wipeLoopF]
    by_cases h0 : remaining = 0
    · subst h0; simp [List.take_append_drop]
    · simp only [h0, if_false]
      have hchunk : 0 < chunkLen := by decide
      have hn1 : 1 ≤ min chunkLen remaining := by omega
      have hnr : min chunkLen remaining ≤ remaining := Nat.min_le_right _ _
      set n := min chunkLen remaining with hn
      set c := writeAt content pos (List.replicate n 0) with hc
      have hclen : c.length = max content.length (pos + n) := by
        rw [hc, writeAt_length _ _ _ hp, List.length_replicate]
      have hp' : pos + n ≤ c.length := by omega
      rw [ih c (pos + n) (remaining - n) (by omega) hp']
      have hlen : (content.take pos ++ List.replicate n 0).length = pos + n := by
        simp only [List.length_append, List.length_take, List.length_replicate]
        omega
      have hctake : c.take (pos + n) = content.take pos ++ List.replicate n 0 := by
        rw [hc, writeAt, List.length_replicate, ← hlen, List.take_left]
      have hcdrop : c.drop (pos + n + (remaining - n)) = content.drop (pos + remaining) := by
        rw [hc, writeAt, List.length_replicate,
          show pos + n + (remaining - n) =
            (content.take pos ++ List.replicate n 0).length + (remaining - n) by omega,
          List.drop_append, List.drop_drop]
        congr 1
        omega
      rw [hctake, hcdrop]
      simp only [List.append_assoc]
      rw [← List.append_assoc (List.replicate n 0), ← List.replicate_add,
        show n + (remaining - n) = remaining by omega]

/-- The net effect of `_wipe_storage`'s chunk loop: the first `remaining`
bytes become zero, bytes past the extent are untouched, and a file shorter
than the extent grows to it. -/
theorem wipeLoop_spec (content : List Nat) (remaining : Nat) :
    wipeLoop content 0 remaining =
      List.replicate remaining 0 ++ content.drop remaining := by
  have h := wipeLoopF_spec remaining content 0 remaining (le_refl _) (Nat.zero_le _)
  rw [wipeLoop, h]
  simp

/-- A run of `runUnits` touches only the paths of its own units. -/
theorem runUnits_preserves (w : Wipe) : ∀ (sts : List Storage) (fs : FS) (p : String),
    (∀ u ∈ sts, u.path ≠ p) →
    (Wipe.runUnits w sts fs).2 p = fs p := by
  intro sts
  induction sts with
  | nil => intro fs p _; rfl
  | cons u sts ih =>
    intro fs p hp
    have hup : u.path ≠ p := hp u (by simp)
    have hrest : ∀ x ∈ sts, x.path ≠ p := fun x hx => hp x (by simp [hx])
    rw [Wipe.runUnits]
    cases hws : wipeStorage u fs with
    | error e => rfl
    | ok fs1 =>
      have hfs1 : fs1 p = fs p := by
        rcases hu : (u.transport == "file") with _ | _
        · exfalso
          rw [wipeStorage] at hws
          simp only [ne_eq, beq_eq_false_iff_ne] at hu
          simp [hu] at hws
        · rw [wipeStorage] at hws
          simp only [beq_iff_eq] at hu
          simp only [ne_eq, hu, not_true_eq_false, if_false] at hws
          cases hws
          simp [updateFS, hup, if_neg (fun hq : p = u.path => hup hq.symm)]
      by_cases hv : (w.verify && !(w.samples == 0)) = true
      · simp only [hv, if_true]
        cases hvz : verifyZero u fs1 with
        | error e => exact hfs1
        | ok _ => rw [ih fs1 p hrest]; exact hfs1
      · simp only [Bool.not_eq_true] at hv
        simp only [hv, Bool.false_eq_true, if_false]
        rw [ih fs1 p hrest]; exact hfs1

/-- Processing a unit list splits at a clean prefix. -/
theorem runUnits_append_ok (w : Wipe) : ∀ (pre rest : List Storage) (fs fs1 : FS),
    Wipe.runUnits w pre fs = (none, fs1) →
    Wipe.runUnits w (pre ++ rest) fs = Wipe.runUnits w rest fs1 := by
  intro pre
  induction pre with
  | nil =>
    intro rest fs fs1 h
    cases h
    rfl
  | cons u pre ih =>
    intro rest fs fs1 h
    rw [Wipe.runUnits] at h
    rw [List.cons_append, Wipe.runUnits]
    cases hws : wipeStorage u fs with
    | error e => rw [hws] at h; exact absurd h (by simp)
    | ok fsx =>
      rw [hws] at h
      by_cases hv : (w.verify && !(w.samples == 0)) = true
      · simp only [hv, if_true] at h ⊢
        cases hvz : verifyZero u fsx with
        | error e => rw [hvz] at h; exact absurd h (by simp)
        | ok _ => rw [hvz] at h; exact ih rest fsx fs1 h
      · simp only [Bool.not_eq_true] at hv
        simp only [hv, Bool.false_eq_true, if_false] at h ⊢
        exact ih rest fsx fs1 h

/-- Claim C4: for every Storage unit of the whitelisted `"file"` transport
with `size_bytes = N`, a successful run of `_wipe_storage` (the sanitize
step) sets every byte of the extent `[0, N)` to zero. -/
theorem C4_sanitize_sets_extent_zero (st : Storage) (fs : FS)
    (h : st.transport = "file") :
    ∃ fs', wipeStorage st fs = .ok fs' ∧
      (fs' st.path).take st.size_bytes = List.replicate st.size_bytes 0 ∧
      st.size_bytes ≤ (fs' st.path).length := by
  have hup : ∀ v : List Nat, updateFS fs st.path v st.path = v := fun v => by
    simp [updateFS]
  refine ⟨updateFS fs st.path (wipeLoop (fs st.path) 0 st.size_bytes), ?_, ?_, ?_⟩
  · rw [wipeStorage]
    simp [h]
  · rw [hup, wipeLoop_spec, List.take_left']
    exact List.length_replicate _ _
  · rw [hup, wipeLoop_spec]
    simp only [List.length_append, List.length_replicate]
    omega

/-- Witness for C4: a concrete 3-byte file unit is zeroed on its extent. -/
theorem C4_sanitize_sets_extent_zero_witness :
    (Storage.mk "sda" "/tmp/img" 3 "file").transport = "file" ∧
    ∃ g, wipeStorage (Storage.mk "sda" "/tmp/img" 3 "file") (fun _ => [7, 8, 9, 10]) =
        .ok g ∧
      (g "/tmp/img").take 3 = List.replicate 3 0 ∧
      3 ≤ (g "/tmp/img").length :=
  ⟨rfl, C4_sanitize_sets_extent_zero (Storage.mk "sda" "/tmp/img" 3 "file")
    (fun _ => [7, 8, 9, 10]) rfl⟩

instance {ε α : Type} [DecidableEq ε] [DecidableEq α] : DecidableEq (Except ε α) :=
  fun a b =>
    match a, b with
    | .error e1, .error e2 =>
      if h : e1 = e2 then isTrue (by rw [h]) else isFalse (by intro hc; cases hc; exact h rfl)
    | .ok a1, .ok a2 =>
      if h : a1 = a2 then isTrue (by rw [h]) else isFalse (by intro hc; cases hc; exact h rfl)
    | .error _, .ok _ => isFalse (by intro hc; cases hc)
    | .ok _, .error _ => isFalse (by intro hc; cases hc)

/-- Counterexample to claim C1 as stated: in a device whose storage list is
a `sata` unit followed by a `usb` unit, the Wipe task does fail, but the
`WriteBlockedError` carries the transport of the *first* non-whitelisted
unit (`sata`), not the transport of the quantified `usb` unit. -/
theorem C1_counterexample :
    (Storage.mk "b" "p2" 4 "usb") ∈
      (Device.mk "d" "v" "m" none
        [Storage.mk "a" "p1" 4 "sata", Storage.mk "b" "p2" 4 "usb"] 0).storage ∧
    (Storage.mk "b" "p2" 4 "usb").transport ≠ "file" ∧
    (Wipe.run (Wipe.mk "nist_clear" false 0 none)
        (Device.mk "d" "v" "m" none
          [Storage.mk "a" "p1" 4 "sata", Storage.mk "b" "p2" 4 "usb"] 0)
        "wd" (fun _ => [1, 2])).1 ≠
      .error (ReuseKitError.mk "WRITE_BLOCKED" "transport usb" false) ∧
    (Wipe.run (Wipe.mk "nist_clear" false 0 none)
        (Device.mk "d" "v" "m" none
          [Storage.mk "a" "p1" 4 "sata", Storage.mk "b" "p2" 4 "usb"] 0)
        "wd" (fun _ => [1, 2])).1 =
      .error (ReuseKitError.mk "WRITE_BLOCKED" "transport sata" false) := by
  exact ⟨by decide, by decide, by decide, rfl⟩

/-- Claim C1, amended: for every Storage unit whose transport is not the
whitelisted `"file"` transport, running Wipe against a Device containing
that unit fails with a `WriteBlockedError` carrying the transport of the
*first* non-whitelisted unit in storage order (once the preceding units have
been processed cleanly), and no byte of the given unit is modified (its path
being distinct from the cleanly-wiped preceding units' paths). -/
theorem C1_wipe_safety_gate (w : Wipe) (device : Device) (workdir : String)
    (fs fs1 : FS) (pre post : List Storage) (u0 st : Storage)
    (hsplit : device.storage = pre ++ u0 :: post)
    (hpre : Wipe.runUnits w pre fs = (none, fs1))
    (hu0 : u0.transport ≠ "file")
    (_hst : st = u0 ∨ st ∈ post)
    (_hstT : st.transport ≠ "file")
    (hpaths : ∀ u ∈ pre, u.path ≠ st.path) :
    Wipe.run w device workdir fs =
      (.error (ReuseKitError.mk "WRITE_BLOCKED" ("transport " ++ u0.transport) false),
        fs1) ∧
    fs1 st.path = fs st.path := by
  constructor
  · have hgate : wipeStorage u0 fs1 =
        .error (ReuseKitError.mk "WRITE_BLOCKED" ("transport " ++ u0.transport) false) := by
      rw [wipeStorage]
      simp [hu0]
    rw [Wipe.run, hsplit, runUnits_append_ok w pre (u0 :: post) fs fs1 hpre,
      Wipe.runUnits, hgate]
  · have hkeep := runUnits_preserves w pre fs st.path hpaths
    rw [hpre] at hkeep
    exact hkeep

/-- Witness for C1 at a concrete two-unit device (empty clean prefix). -/
theorem C1_wipe_safety_gate_witness :
    (Storage.mk "b" "p2" 4 "usb").transport ≠ "file" ∧
    (Wipe.run (Wipe.mk "nist_clear" false 0 none)
        (Device.mk "d" "v" "m" none
          [Storage.mk "a" "p1" 4 "sata", Storage.mk "b" "p2" 4 "usb"] 0)
        "wd" (fun _ => [1, 2]) =
      (.error (ReuseKitError.mk "WRITE_BLOCKED"
          ("transport " ++ (Storage.mk "a" "p1" 4 "sata").transport) false),
        fun _ => [1, 2]) ∧
      (fun _ => ([1, 2] : List Nat)) "p2" = (fun _ => ([1, 2] : List Nat)) "p2") :=
  ⟨by decide,
    C1_wipe_safety_gate (Wipe.mk "nist_clear" false 0 none)
      (Device.mk "d" "v" "m" none
        [Storage.mk "a" "p1" 4 "sata", Storage.mk "b" "p2" 4 "usb"] 0)
      "wd" (fun _ => [1, 2]) (fun _ => [1, 2]) []
      [Storage.mk "b" "p2" 4 "usb"] (Storage.mk "a" "p1" 4 "sata")
      (Storage.mk "b" "p2" 4 "usb") rfl rfl (by decide)
      (Or.inr (by decide)) (by decide) (fun u hu => absurd hu (List.not_mem_nil u))⟩

/-- Claim C9: when the Wipe task succeeds on all storage units, it returns
exactly one Artifact of kind `wipe_report` whose path is the file
`wipe.json` written inside the Session's working directory and whose
`sha256` field is the SHA-256 hex digest of that file's contents. -/
theorem C9_wipe_report_artifact (w : Wipe) (device : Device) (workdir : String)
    (fs fs1 : FS) (h : Wipe.runUnits w device.storage fs = (none, fs1)) :
    Wipe.run w device workdir fs =
      (.ok (Artifact.mk "wipe_report" (workdir ++ "/wipe.json")
          (sha256hexBytes (updateFS fs1 (workdir ++ "/wipe.json") wipeReportBytes
            (workdir ++ "/wipe.json"))) [] (some device.created_at)),
        updateFS fs1 (workdir ++ "/wipe.json") wipeReportBytes) ∧
    updateFS fs1 (workdir ++ "/wipe.json") wipeReportBytes (workdir ++ "/wipe.json") =
      wipeReportBytes := by
  constructor
  · rw [Wipe.run, h]
  · simp [updateFS]

/-- Witness for C9: a concrete one-unit device wiped with verification off. -/
theorem C9_wipe_report_artifact_witness :
    Wipe.runUnits (Wipe.mk "nist_clear" false 0 none)
        (Device.mk "d" "v" "m" none [Storage.mk "a" "p" 2 "file"] 5).storage
        (fun _ => [3, 4, 5]) =
      (none, (Wipe.runUnits (Wipe.mk "nist_clear" false 0 none)
        (Device.mk "d" "v" "m" none [Storage.mk "a" "p" 2 "file"] 5).storage
        (fun _ => [3, 4, 5])).2) ∧
    (Wipe.run (Wipe.mk "nist_clear" false 0 none)
        (Device.mk "d" "v" "m" none [Storage.mk "a" "p" 2 "file"] 5)
        "wd" (fun _ => [3, 4, 5]) =
      (.ok (Artifact.mk "wipe_report" ("wd" ++ "/wipe.json")
          (sha256hexBytes (updateFS (Wipe.runUnits (Wipe.mk "nist_clear" false 0 none)
              (Device.mk "d" "v" "m" none [Storage.mk "a" "p" 2 "file"] 5).storage
              (fun _ => [3, 4, 5])).2 ("wd" ++ "/wipe.json") wipeReportBytes
            ("wd" ++ "/wipe.json"))) []
          (some (Device.mk "d" "v" "m" none [Storage.mk "a" "p" 2 "file"] 5).created_at)),
        updateFS (Wipe.runUnits (Wipe.mk "nist_clear" false 0 none)
            (Device.mk "d" "v" "m" none [Storage.mk "a" "p" 2 "file"] 5).storage
            (fun _ => [3, 4, 5])).2 ("wd" ++ "/wipe.json") wipeReportBytes) ∧
      updateFS (Wipe.runUnits (Wipe.mk "nist_clear" false 0 none)
          (Device.mk "d" "v" "m" none [Storage.mk "a" "p" 2 "file"] 5).storage
          (fun _ => [3, 4, 5])).2 ("wd" ++ "/wipe.json") wipeReportBytes
        ("wd" ++ "/wipe.json") = wipeReportBytes) :=
  ⟨rfl, C9_wipe_report_artifact (Wipe.mk "nist_clear" false 0 none)
    (Device.mk "d" "v" "m" none [Storage.mk "a" "p" 2 "file"] 5) "wd"
    (fun _ => [3, 4, 5]) _ rfl⟩

/-- Counterexample to claim C7 as stated: for a 1-byte-extent `file` unit
whose backing file holds a non-zero byte past the extent, every sampled byte
of the sanitized extent equals the zero pattern, yet the Wipe run fails with
`VerifyMismatchError` — because the verifier re-reads the whole file, not
the extent. -/
theorem C7_counterexample :
    (wipeLoop ((fun (_ : String) => [5, 7]) "p") 0 1).take 1 = List.replicate 1 0 ∧
    (Wipe.run (Wipe.mk "nist_clear" true 1 none)
        (Device.mk "d" "v" "m" none [Storage.mk "s" "p" 1 "file"] 0)
        "wd" (fun _ => [5, 7])).1 =
      .error (ReuseKitError.mk "VERIFY_MISMATCH" "non-zero byte detected" false) := by
  exact ⟨by decide, by decide⟩

/-- Claim C7, amended: when verification is enabled with a non-zero sample
count, after sanitizing a storage unit the Wipe task re-reads the unit's
*entire backing file* and fails with `VerifyMismatchError` if any byte of
the file is non-zero, and no further storage units are processed (the run
stops with exactly the sanitized prefix on disk); verification succeeds for
that unit exactly when every byte of the whole file is zero. -/
theorem C7_verify_mismatch_aborts (w : Wipe) (device : Device) (workdir : String)
    (fs fs1 : FS) (pre post : List Storage) (st : Storage)
    (hsplit : device.storage = pre ++ st :: post)
    (hpre : Wipe.runUnits w pre fs = (none, fs1))
    (hT : st.transport = "file")
    (hv : w.verify = true) (hsam : w.samples ≠ 0) :
    ((wipeLoop (fs1 st.path) 0 st.size_bytes).any (fun b => b ≠ 0) = true →
      Wipe.run w device workdir fs =
        (.error (ReuseKitError.mk "VERIFY_MISMATCH" "non-zero byte detected" false),
          updateFS fs1 st.path (wipeLoop (fs1 st.path) 0 st.size_bytes))) ∧
    ((wipeLoop (fs1 st.path) 0 st.size_bytes).any (fun b => b ≠ 0) = false →
      Wipe.runUnits w (st :: post) fs1 =
        Wipe.runUnits w post (updateFS fs1 st.path (wipeLoop (fs1 st.path) 0 st.size_bytes))) := by
  have hws : wipeStorage st fs1 =
      .ok (updateFS fs1 st.path (wipeLoop (fs1 st.path) 0 st.size_bytes)) := by
    rw [wipeStorage]
    simp [hT]
  have hcond : (w.verify && !(w.samples == 0)) = true := by
    simp [hv, hsam]
  have hread : updateFS fs1 st.path (wipeLoop (fs1 st.path) 0 st.size_bytes) st.path =
      wipeLoop (fs1 st.path) 0 st.size_bytes := by
    simp [updateFS]
  constructor
  · intro hany
    have hvz : verifyZero st (updateFS fs1 st.path (wipeLoop (fs1 st.path) 0 st.size_bytes)) =
        .error (ReuseKitError.mk "VERIFY_MISMATCH" "non-zero byte detected" false) := by
      rw [verifyZero, hread, hany]
      rfl
    rw [Wipe.run, hsplit, runUnits_append_ok w pre (st :: post) fs fs1 hpre,
      Wipe.runUnits]
    simp only [hws, hcond, if_true, hvz]
  · intro hany
    have hvz : verifyZero st (updateFS fs1 st.path (wipeLoop (fs1 st.path) 0 st.size_bytes)) =
        .ok () := by
      rw [verifyZero, hread, hany]
      rfl
    rw [Wipe.runUnits]
    simp only [hws, hcond, if_true, hvz]

/-- Witness for C7 at the concrete mismatching unit of the counterexample
device (empty clean prefix, verification on, one residual non-zero byte). -/
theorem C7_verify_mismatch_aborts_witness :
    (Storage.mk "s" "p" 1 "file").transport = "file" ∧
    (Wipe.mk "nist_clear" true 1 none).verify = true ∧
    (Wipe.mk "nist_clear" true 1 none).samples ≠ 0 ∧
    (wipeLoop ((fun (_ : String) => [5, 7]) "p") 0 1).any (fun b => b ≠ 0) = true ∧
    Wipe.run (Wipe.mk "nist_clear" true 1 none)
        (Device.mk "d" "v" "m" none [Storage.mk "s" "p" 1 "file"] 0)
        "wd" (fun _ => [5, 7]) =
      (.error (ReuseKitError.mk "VERIFY_MISMATCH" "non-zero byte detected" false),
        updateFS (fun _ => [5, 7]) "p" (wipeLoop ((fun (_ : String) => [5, 7]) "p") 0 1)) :=
  ⟨rfl, rfl, by decide, by decide,
    (C7_verify_mismatch_aborts (Wipe.mk "nist_clear" true 1 none)
      (Device.mk "d" "v" "m" none [Storage.mk "s" "p" 1 "file"] 0) "wd"
      (fun _ => [5, 7]) (fun _ => [5, 7]) [] [] (Storage.mk "s" "p" 1 "file")
      rfl rfl rfl rfl (by decide)).1 (by decide)⟩

/-! ## Claims C2, C5, C8: the Session orchestrator -/

theorem runEvents_records_map (calls : List (String × List (String × String))) :
    ∀ lg : LoggerState,
    (runEvents calls lg).records.map (fun r => (r.kind, r.data)) =
      lg.records.map (fun r => (r.kind, r.data)) ++ calls := by
  induction calls with
  | nil => intro lg; simp [runEvents]
  | cons c cs ih =>
    intro lg
    show (runEvents cs (Logger.event c.1 c.2 lg)).records.map _ = _
    rw [ih]
    simp [Logger.event, Logger.mkRecord]

theorem runEvents_records_length (calls : List (String × List (String × String))) :
    ∀ lg : LoggerState,
    (runEvents calls lg).records.length = lg.records.length + calls.length := by
  induction calls with
  | nil => intro lg; simp [runEvents]
  | cons c cs ih =>
    intro lg
    show (runEvents cs (Logger.event c.1 c.2 lg)).records.length = _
    rw [ih]
    show ((lg.records ++ [Logger.mkRecord c.1 c.2 lg]).length) + cs.length = _
    rw [List.length_append]
    simp only [List.length_cons, List.length_nil]
    omega

theorem RunSucceeds_length {tasks : List PTask} {fs : FS} {arts : List Artifact}
    {fs' : FS} (h : RunSucceeds tasks fs arts fs') : arts.length = tasks.length := by
  induction h with
  | nil => rfl
  | cons _ _ ih => simp [ih]

theorem taskEvents_cons (t : PTask) (ts : List PTask) (a : Artifact)
    (arts : List Artifact) :
    taskEvents (t :: ts) (a :: arts) =
      ("task_start", [("name", t.name)]) ::
      ("task_end", [("name", t.name), ("artifact", a.path)]) :: taskEvents ts arts := by
  simp [taskEvents]

theorem taskEvents_length (ts : List PTask) (as : List Artifact) :
    (taskEvents ts as).length = 2 * (ts.zip as).length := by
  unfold taskEvents
  generalize ts.zip as = l
  induction l with
  | nil => rfl
  | cons p l ih =>
    simp only [List.flatMap_cons, List.length_append, ih, List.length_cons,
      List.length_nil]
    omega

theorem runLoop_ok {tasks : List PTask} {fs : FS} {arts : List Artifact} {fs' : FS}
    (h : RunSucceeds tasks fs arts fs') : ∀ (lg : LoggerState) (acc : List Artifact),
    Session.runLoop tasks ⟨fs, lg⟩ acc =
      (.ok (acc ++ arts), ⟨fs', runEvents (taskEvents tasks arts) lg⟩) := by
  induction h with
  | nil fs => intro lg acc; simp [Session.runLoop, taskEvents, runEvents]
  | cons hrun hrest ih =>
    intro lg acc
    rw [Session.runLoop]
    simp only [hrun]
    rw [ih]
    rw [taskEvents_cons]
    show _ = (Except.ok (acc ++ _ :: _), _)
    simp [runEvents, List.append_assoc]

/-- Claim C5: for every valid pipeline whose tasks all succeed, `Session.run`
returns the N artifacts in pipeline order, and a fresh Logger records exactly
2N events, in order: for each task a `task_start` event followed by a
`task_end` event (with the task's name and the artifact's path). -/
theorem C5_all_tasks_succeed (tasks : List PTask) (s : SessionState)
    (arts : List Artifact) (fs' : FS)
    (hval : Pipeline.validate tasks = .ok ())
    (hfresh : s.logger.records = [])
    (hrun : RunSucceeds tasks s.fs arts fs') :
    Session.run tasks s =
      (.ok arts, ⟨fs', runEvents (taskEvents tasks arts) s.logger⟩) ∧
    arts.length = tasks.length ∧
    (runEvents (taskEvents tasks arts) s.logger).records.map
        (fun r => (r.kind, r.data)) = taskEvents tasks arts ∧
    (runEvents (taskEvents tasks arts) s.logger).records.length =
      2 * tasks.length := by
  have hlen := RunSucceeds_length hrun
  refine ⟨?_, hlen, ?_, ?_⟩
  · rw [Session.run, hval]
    have h := runLoop_ok hrun s.logger []
    simpa using h
  · rw [runEvents_records_map, hfresh]
    simp
  · rw [runEvents_records_length, hfresh, taskEvents_length, List.length_zip, hlen]
    simp

/-- The audit events of a run whose first `m` tasks succeed with artifacts
`arts` and whose `(m+1)`-st task raises `e`: the bracketed events of the
clean prefix, then `task_start` and `task_error` for the failing task. -/
def failEvents (tasks : List PTask) (arts : List Artifact) (m : Nat)
    (e : ReuseKitError) : List (String × List (String × String)) :=
  taskEvents (tasks.take m) arts ++
    [("task_start", [("name", (tasks.getD m default).name)]),
     ("task_error", [("name", (tasks.getD m default).name), ("error", reprErr e)])]

theorem FailsAt_length {tasks : List PTask} {fs : FS} {m : Nat}
    {arts : List Artifact} {e : ReuseKitError} {fs' : FS}
    (h : FailsAt tasks fs m arts e fs') : arts.length = m ∧ m < tasks.length := by
  induction h with
  | here _ => exact ⟨rfl, by simp⟩
  | there _ _ ih => exact ⟨by simp [ih.1], by simp; omega⟩

theorem runLoop_fail {tasks : List PTask} {fs : FS} {m : Nat}
    {arts : List Artifact} {e : ReuseKitError} {fs' : FS}
    (h : FailsAt tasks fs m arts e fs') : ∀ (lg : LoggerState) (acc : List Artifact),
    Session.runLoop tasks ⟨fs, lg⟩ acc =
      (.error e, ⟨fs', runEvents (failEvents tasks arts m e) lg⟩) := by
  induction h with
  | here hrun =>
    intro lg acc
    rw [Session.runLoop]
    simp only [hrun]
    simp [failEvents, taskEvents, runEvents]
  | @there t ts fs2 fs3 fs4 a arts2 m2 e2 hrun hrest ih =>
    intro lg acc
    rw [Session.runLoop]
    simp only [hrun]
    rw [ih]
    have hfe : failEvents (t :: ts) (a :: arts2) (m2 + 1) e2 =
        ("task_start", [("name", t.name)]) ::
        ("task_end", [("name", t.name), ("artifact", a.path)]) ::
        failEvents ts arts2 m2 e2 := by
      rw [failEvents, failEvents, List.take_succ_cons, taskEvents_cons,
        List.getD_cons_succ, List.cons_append, List.cons_append]
    rw [hfe]
    rfl

/-- Claim C2, amended: for every valid pipeline of N tasks whose `(m+1)`-st
task (`k = m+1`) is the first to fail, `Session.run` logs `task_start`/
`task_end` for each of the `m` completed tasks, then `task_start` and a
final `task_error` for task `k`, and propagates the failure unchanged; no
artifact sequence is returned (the `k−1 = m` accumulated artifacts are
discarded), the fresh Logger holds exactly `2(k−1)+2` events ending in the
`task_error` for task `k`, and tasks `k+1..N` never execute (the final state
is exactly the state at the failure). -/
theorem C2_first_failure (tasks : List PTask) (s : SessionState) (m : Nat)
    (arts : List Artifact) (e : ReuseKitError) (fs' : FS)
    (hval : Pipeline.validate tasks = .ok ())
    (hfresh : s.logger.records = [])
    (hfail : FailsAt tasks s.fs m arts e fs') :
    Session.run tasks s =
      (.error e, ⟨fs', runEvents (failEvents tasks arts m e) s.logger⟩) ∧
    (∀ l : List Artifact, (Session.run tasks s).1 ≠ .ok l) ∧
    arts.length = m ∧
    (runEvents (failEvents tasks arts m e) s.logger).records.map
        (fun r => (r.kind, r.data)) = failEvents tasks arts m e ∧
    (runEvents (failEvents tasks arts m e) s.logger).records.length = 2 * m + 2 ∧
    (failEvents tasks arts m e).getLast? =
      some ("task_error",
        [("name", (tasks.getD m default).name), ("error", reprErr e)]) := by
  obtain ⟨hartlen, hmlt⟩ := FailsAt_length hfail
  have hmain : Session.run tasks s =
      (.error e, ⟨fs', runEvents (failEvents tasks arts m e) s.logger⟩) := by
    rw [Session.run, hval]
    have h := runLoop_fail hfail s.logger []
    simpa using h
  refine ⟨hmain, ?_, hartlen, ?_, ?_, ?_⟩
  · intro l hl
    rw [hmain] at hl
    exact absurd hl (by simp)
  · rw [runEvents_records_map, hfresh]
    simp
  · rw [runEvents_records_length, hfresh, failEvents, List.length_append,
      taskEvents_length, List.length_zip, List.length_take, hartlen]
    simp only [List.length_cons, List.length_nil, List.length_nil]
    omega
  · rw [failEvents, show
      ([("task_start", [("name", (tasks.getD m default).name)]),
        ("task_error",
          [("name", (tasks.getD m default).name), ("error", reprErr e)])] :
        List (String × List (String × String))) =
      [("task_start", [("name", (tasks.getD m default).name)])] ++
        [("task_error",
          [("name", (tasks.getD m default).name), ("error", reprErr e)])] from rfl,
      ← List.append_assoc, List.getLast?_concat]

/-- Claim C8: for every pipeline that fails validation, `Session.run` returns
the validation error with the session state untouched — before any task
executes and before any log event is emitted (validation is pure). -/
theorem C8_validation_precedes_effects (tasks : List PTask) (s : SessionState)
    (e : ReuseKitError) (h : Pipeline.validate tasks = .error e) :
    Session.run tasks s = (.error e, s) ∧
    (Session.run tasks s).2.logger.records = s.logger.records ∧
    (Session.run tasks s).2.fs = s.fs := by
  have hmain : Session.run tasks s = (.error e, s) := by
    rw [Session.run, h]
  exact ⟨hmain, by rw [hmain], by rw [hmain]⟩

/-- A task that always succeeds, for concrete runs. -/
def okArt : Artifact :=
  { kind := "report", path := "wd/report.json", sha256 := "00", meta := [],
    created_at := none }

def okTask : PTask := { isTask := true, name := "collect", run := fun fs => (.ok okArt, fs) }

/-- A task that always raises, for concrete runs. -/
def boomErr : ReuseKitError := { code := "BOOM", hint := "disk on fire", recoverable := false }

def boomTask : PTask := { isTask := true, name := "burn", run := fun fs => (.error boomErr, fs) }

/-- A session over an empty filesystem with a fresh logger. -/
def freshSession : SessionState :=
  { fs := fun _ => [], logger := Logger.init (fun _ => 0) }

/-- Witness for C5: one succeeding task, two logged events. -/
theorem C5_all_tasks_succeed_witness :
    Pipeline.validate [okTask] = .ok () ∧
    RunSucceeds [okTask] freshSession.fs [okArt] freshSession.fs ∧
    Session.run [okTask] freshSession =
      (.ok [okArt],
        ⟨freshSession.fs, runEvents (taskEvents [okTask] [okArt]) freshSession.logger⟩) ∧
    (runEvents (taskEvents [okTask] [okArt]) freshSession.logger).records.length = 2 :=
  have hrs : RunSucceeds [okTask] freshSession.fs [okArt] freshSession.fs :=
    RunSucceeds.cons rfl (RunSucceeds.nil _)
  have h := C5_all_tasks_succeed [okTask] freshSession [okArt] freshSession.fs
    rfl rfl hrs
  ⟨rfl, hrs, h.1, by rw [h.2.2.2]; rfl⟩

/-- Counterexample to claim C2 as stated: when the single task of a valid
one-task pipeline fails (`k = 1`), `Session.run` does not return an Artifact
sequence of `k−1 = 0` elements — the failure propagates and nothing is
returned. -/
theorem C2_counterexample :
    (Session.run [boomTask] freshSession).1 ≠ .ok [] ∧
    (Session.run [boomTask] freshSession).1 = .error boomErr := by
  exact ⟨by decide, by decide⟩

/-- Witness for C2 at a concrete two-task pipeline whose second task fails. -/
theorem C2_first_failure_witness :
    Pipeline.validate [okTask, boomTask] = .ok () ∧
    FailsAt [okTask, boomTask] freshSession.fs 1 [okArt] boomErr freshSession.fs ∧
    (Session.run [okTask, boomTask] freshSession).1 = .error boomErr ∧
    (runEvents (failEvents [okTask, boomTask] [okArt] 1 boomErr)
      freshSession.logger).records.length = 4 :=
  have hf : FailsAt [okTask, boomTask] freshSession.fs 1 [okArt] boomErr
      freshSession.fs :=
    FailsAt.there rfl (FailsAt.here rfl)
  have h := C2_first_failure [okTask, boomTask] freshSession 1 [okArt] boomErr
    freshSession.fs rfl rfl hf
  ⟨rfl, hf, by rw [h.1], by rw [h.2.2.2.2.1]⟩

/-- Witness for C8: an empty pipeline fails validation and leaves the
session state untouched. -/
theorem C8_validation_precedes_effects_witness :
    Pipeline.validate ([] : List PTask) =
      .error (ReuseKitError.mk "EMPTY_PIPELINE" "add at least one task" true) ∧
    Session.run [] freshSession =
      (.error (ReuseKitError.mk "EMPTY_PIPELINE" "add at least one task" true),
        freshSession) :=
  ⟨rfl, (C8_validation_precedes_effects [] freshSession
    (ReuseKitError.mk "EMPTY_PIPELINE" "add at least one task" true) rfl).1⟩

end Reusekit
